import Mathlib

/-!
Shallow embedding of the ESP32 sensor-bridge firmware (`node.ino`) and proofs
about its role/failover state machine, mode synchronization, wake-window
recentering, PWM decoder and query-server handlers.

Conventions of the embedding:
* C `int` / `long` values are modelled as `ℤ`; wherever 32-bit overflow can
  occur on the device the result is wrapped explicitly with `toInt32`
  (two's-complement wraparound of a 32-bit signed integer).
* The mesh size `MAX_NODES` (derived in the source from the `nodeMacs` table,
  concretely 3) is passed around as an explicit parameter `N`; the concrete
  firmware instantiates `N = MAX_NODES = 3`.
* The asynchronous ESP-NOW callbacks `onDataSent` / `onDataRecv` are modelled
  as pure state-transition functions; messages the node emits through
  `esp_now_send` are collected in a `List OutFrame`.
* The `nodeModeSynced` array (indices `0..MAX_NODES`) is a `List Bool` of
  length `N+1` and `latestNodeData` a `List Snapshot` of the same length,
  updated positionally exactly like the source arrays.
* NVS (persistent storage) is modelled by the `nvsMode` / `nvsTarget` fields;
  the ULP wake-scheduler configuration by the `ulpRunning` flag
  (`ulp_init()` sets it, `hulp_ulp_end()` clears it).
-/

namespace SensorBridge

/-- `FAILOVER_THRESHOLD` from the source: consecutive send failures that
trigger failover. -/
def FAILOVER_THRESHOLD : ℕ := 3

/-- `SENSOR_WINDOW_MARGIN` from the source: margin for delta-threshold
wakeups (rain/soil). -/
def SENSOR_WINDOW_MARGIN : ℕ := 100

/-- `MAX_NODES` from the source: number of entries of the `nodeMacs` table. -/
def MAX_NODES : ℕ := 3

/-- `node_role_t`: `ROLE_SENDER` / `ROLE_RECEIVER`. -/
inductive NodeRole
  | sender
  | receiver
deriving DecidableEq

/-- `operating_mode_t`: `STANDBY_MODE` / `DATA_COLLECTION_MODE`. -/
inductive OperatingMode
  | standby
  | dataCollection
deriving DecidableEq

/-- `message_type_t`: `MSG_TYPE_DATA`, `MSG_TYPE_PROBE`,
`MSG_TYPE_ANNOUNCE_AR`, `MSG_TYPE_MODE_CHANGE`. -/
inductive MessageType
  | data
  | probe
  | announceAR
  | modeChange
deriving DecidableEq

/-- `struct_message`: the packed ESP-NOW wire record (the 4-byte
`dummy_payload` carries no information and is omitted). -/
structure Message where
  type : MessageType
  senderId : ℤ
  wakeCounter : ℤ
  tilt_centi_deg : ℤ
  vibration_milli_g : ℤ
  rain_adc_value : ℤ
  soil_adc_value : ℤ
  newMode : OperatingMode
deriving DecidableEq

/-- `CurrentSensorReadings`: one entry of `latestNodeData`.  The stored MAC
address is abstracted by `macId`, the mesh id it resolves to; `initFlag`
models the source field `initialized`. -/
structure Snapshot where
  macId : ℤ := 0
  rain_adc_value : ℤ := 0
  soil_adc_value : ℤ := 0
  vibration_milli_g : ℤ := 0
  tilt_centi_deg : ℤ := 0
  lastUpdated : ℕ := 0
  initFlag : Bool := false
deriving DecidableEq

/-- The mutable node state: globals, `RTC_DATA_ATTR` retained variables and
the NVS-persisted values of `node.ino`. -/
structure NodeState where
  myNodeId : ℤ
  myRole : NodeRole
  targetNodeId : ℤ
  currentOperatingMode : OperatingMode
  lastAnnouncedAR : ℤ
  consecutiveSendFailures : ℕ
  lastFailedTargetId : ℤ
  probingForFailover : Bool
  failedLastSend : Bool
  ulpJustWoke : Bool
  nodeModeSynced : List Bool
  latestNodeData : List Snapshot
  nvsMode : OperatingMode
  nvsTarget : ℤ
  ulpRunning : Bool
  serverRunning : Bool
deriving DecidableEq

/-- Destination of an `esp_now_send` call: the broadcast MAC or the MAC of a
mesh node (identified by the id it resolves to). -/
inductive Dest
  | broadcast
  | unicast (id : ℤ)
deriving DecidableEq

/-- One frame handed to `esp_now_send`. -/
structure OutFrame where
  dest : Dest
  msg : Message
deriving DecidableEq

/-- `ulp_init()` runs the wake scheduler for `STANDBY_MODE`,
`hulp_ulp_end()` stops it for `DATA_COLLECTION_MODE`; every mode
reconfiguration site in the source follows this pattern. -/
def modeUlp : OperatingMode → Bool
  | .standby => true
  | .dataCollection => false

/-- The `MSG_TYPE_ANNOUNCE_AR` frame the source assembles in
`messageToSend` (type, senderId, wakeCounter = 0, current mode; sensor
fields are not set for announcements and are modelled as 0). -/
def announceMsg (s : NodeState) : Message :=
  { type := .announceAR, senderId := s.myNodeId, wakeCounter := 0,
    tilt_centi_deg := 0, vibration_milli_g := 0, rain_adc_value := 0,
    soil_adc_value := 0, newMode := s.currentOperatingMode }

/-- The `MSG_TYPE_MODE_CHANGE` frame the source assembles in
`messageToSend`. -/
def modeChangeMsg (s : NodeState) : Message :=
  { type := .modeChange, senderId := s.myNodeId, wakeCounter := 0,
    tilt_centi_deg := 0, vibration_milli_g := 0, rain_adc_value := 0,
    soil_adc_value := 0, newMode := s.currentOperatingMode }

/-- Write to `nodeModeSynced[i]`. -/
def syncSet (l : List Bool) (i : ℤ) (v : Bool) : List Bool :=
  l.set i.toNat v

/-- Read `nodeModeSynced[i]`. -/
def syncGet (l : List Bool) (i : ℤ) : Bool :=
  l.getD i.toNat false

/-- Write to `latestNodeData[i]`. -/
def snapSet (l : List Snapshot) (i : ℤ) (snap : Snapshot) : List Snapshot :=
  l.set i.toNat snap

/-- Read `latestNodeData[i]`. -/
def snapGet (l : List Snapshot) (i : ℤ) : Snapshot :=
  l.getD i.toNat {}

/-- `becomeSender(int newTargetId)`: validates the target (out-of-range ids
fall back to node 1), sets the sender role, target, `lastAnnouncedAR`,
resets the failure counter, persists the target to NVS and stops the web
server. -/
def becomeSender (N : ℕ) (s : NodeState) (newTargetId : ℤ) : NodeState :=
  let t := if newTargetId < 1 ∨ (N : ℤ) < newTargetId then 1 else newTargetId
  { s with myRole := .sender, targetNodeId := t, lastAnnouncedAR := t,
           consecutiveSendFailures := 0, nvsTarget := t,
           serverRunning := false }

/-- `becomeActiveReceiver()`: receiver role, no target, announces self as AR,
resets the failure counter, persists target 0, starts the web server, clears
the whole `nodeModeSynced` table and broadcasts an `ANNOUNCE_AR` carrying the
current operating mode. -/
def becomeActiveReceiver (N : ℕ) (s : NodeState) : NodeState × List OutFrame :=
  let s1 := { s with myRole := .receiver, targetNodeId := 0,
                     lastAnnouncedAR := s.myNodeId,
                     consecutiveSendFailures := 0, nvsTarget := 0,
                     serverRunning := true,
                     nodeModeSynced := List.replicate (N + 1) false }
  (s1, [⟨.broadcast, announceMsg s1⟩])

/-- `findNewTargetAndFailover()`: with an unknown failed target, reset and
target node 1; otherwise promote self to AR when the successor `t+1` runs
past the mesh or is self, else target `t+1`. -/
def findNewTargetAndFailover (N : ℕ) (s : NodeState) :
    NodeState × List OutFrame :=
  if s.lastFailedTargetId = 0 then
    (becomeSender N { s with consecutiveSendFailures := 0,
                             lastFailedTargetId := 0 } 1, [])
  else
    let expectedNewAR := s.lastFailedTargetId + 1
    if (N : ℤ) < expectedNewAR ∨ expectedNewAR = s.myNodeId then
      becomeActiveReceiver N s
    else
      (becomeSender N s expectedNewAR, [])

/-- `onDataSent` callback: `remoteId` is the id `getNodeIdFromMac` resolves
for the destination MAC (0 when unrecognized, e.g. the broadcast address). -/
def onDataSent (N : ℕ) (s : NodeState) (remoteId : ℤ) (success : Bool) :
    NodeState × List OutFrame :=
  if success then
    ({ s with consecutiveSendFailures := 0, probingForFailover := false,
              failedLastSend := false, ulpJustWoke := false }, [])
  else
    let s1 := { s with failedLastSend := true }
    if remoteId = s1.targetNodeId then
      let s2 := { s1 with
        consecutiveSendFailures := s1.consecutiveSendFailures + 1,
        lastFailedTargetId := remoteId }
      if FAILOVER_THRESHOLD ≤ s2.consecutiveSendFailures then
        let r := findNewTargetAndFailover N s2
        ({ r.1 with failedLastSend := false }, r.2)
      else (s2, [])
    else (s1, [])

/-- `onDataRecv` callback: `macId` is the id `getNodeIdFromMac` resolves
from the sender MAC; `now` is `millis()` at the time of receipt.  Messages
from unrecognized MACs (`macId = 0`) are dropped (the length check of the
source always passes in this typed model). -/
def onDataRecv (N : ℕ) (now : ℕ) (s : NodeState) (macId : ℤ)
    (msg : Message) : NodeState × List OutFrame :=
  if macId = 0 then (s, [])
  else
    match msg.type with
    | .announceAR =>
        let s1 := { s with lastAnnouncedAR := msg.senderId }
        let s2 :=
          if s1.myRole = .receiver ∧ macId < s1.myNodeId then
            -- AR takeback: yield to the higher-priority announcer, then
            -- reconfigure the ULP for the (still current) operating mode
            let d := becomeSender N s1 macId
            { d with ulpRunning := modeUlp d.currentOperatingMode }
          else if s1.myRole = .sender ∧ macId ≠ s1.targetNodeId then
            becomeSender N s1 macId
          else s1
        if s2.currentOperatingMode ≠ msg.newMode then
          ({ s2 with currentOperatingMode := msg.newMode,
                     nvsMode := msg.newMode,
                     ulpRunning := modeUlp msg.newMode }, [])
        else (s2, [])
    | .probe =>
        if s.myRole = .receiver then
          ({ s with nodeModeSynced := syncSet s.nodeModeSynced macId true },
           [⟨.unicast macId, announceMsg s⟩])
        else (s, [])
    | .data =>
        if s.myRole = .receiver then
          let snap : Snapshot :=
            { macId := macId, rain_adc_value := msg.rain_adc_value,
              soil_adc_value := msg.soil_adc_value,
              vibration_milli_g := msg.vibration_milli_g,
              tilt_centi_deg := msg.tilt_centi_deg,
              lastUpdated := now, initFlag := true }
          let s1 :=
            if 1 ≤ macId ∧ macId ≤ (N : ℤ) then
              { s with latestNodeData := snapSet s.latestNodeData macId snap }
            else s
          if syncGet s1.nodeModeSynced macId = false then
            ({ s1 with nodeModeSynced := syncSet s1.nodeModeSynced macId true },
             [⟨.unicast macId, announceMsg s1⟩])
          else (s1, [])
        else (s, [])
    | .modeChange =>
        if s.currentOperatingMode ≠ msg.newMode then
          let s1 := { s with currentOperatingMode := msg.newMode,
                             nvsMode := msg.newMode,
                             ulpRunning := modeUlp msg.newMode }
          if s1.myNodeId = 1 then
            ({ s1 with nodeModeSynced := List.replicate (N + 1) false },
             [⟨.broadcast, announceMsg s1⟩])
          else (s1, [])
        else (s, [])

/-! ### Query server (`WebServer` on port 80) -/

/-- Body of an HTTP response produced by the two handlers (the JSON payloads
are abstracted by their structured content). -/
inductive RespBody
  | sensorJson (nodeId macId rain soil vibration tilt : ℤ) (lastUpdated : ℕ)
  | sensorError
  | setSuccess (newMode : String)
  | setUnchanged (currentMode : String)
  | invalidModeError
  | missingModeError
  | notFoundPage
deriving DecidableEq

/-- An HTTP response: status code plus body. -/
structure HttpResponse where
  code : ℕ
  body : RespBody
deriving DecidableEq

/-- ASCII lower-casing of one character (the comparison
`String.equalsIgnoreCase` performs per character). -/
def lowerChar (c : Char) : Char :=
  if 65 ≤ c.toNat ∧ c.toNat ≤ 90 then Char.ofNat (c.toNat + 32) else c

/-- ASCII lower-casing of a string, used to model
`String.equalsIgnoreCase`. -/
def lowerStr (s : String) : String :=
  ⟨s.data.map lowerChar⟩

/-- `handleSensorData()`: `nodeIdArg` models `server.arg("nodeId").toInt()`
when the `nodeId` parameter is present; without it the handler defaults to
this node's own id.  Answers 200 with the stored snapshot when the id is in
range and that entry is initialized, otherwise 404. -/
def handleSensorData (N : ℕ) (s : NodeState) (nodeIdArg : Option ℤ) :
    HttpResponse :=
  let requestedNodeId := nodeIdArg.getD s.myNodeId
  let entry := snapGet s.latestNodeData requestedNodeId
  if 1 ≤ requestedNodeId ∧ requestedNodeId ≤ (N : ℤ) ∧ entry.initFlag then
    ⟨200, .sensorJson requestedNodeId entry.macId entry.rain_adc_value
      entry.soil_adc_value entry.vibration_milli_g entry.tilt_centi_deg
      entry.lastUpdated⟩
  else
    ⟨404, .sensorError⟩

/-- `handleSetMode()`: `modeArg` models `server.arg("mode")` when the `mode`
parameter is present.  Mode strings are compared case-insensitively
(`equalsIgnoreCase`).  On an actual change: persist to NVS, broadcast
`MSG_TYPE_MODE_CHANGE` five times, reconfigure the ULP, and — only when
`myNodeId == 1` — reset the `nodeModeSynced` table and broadcast one
`ANNOUNCE_AR`. -/
def handleSetMode (N : ℕ) (s : NodeState) (modeArg : Option String) :
    HttpResponse × NodeState × List OutFrame :=
  match modeArg with
  | none => (⟨400, .missingModeError⟩, s, [])
  | some modeStr =>
    if lowerStr modeStr = "standby" ∨ lowerStr modeStr = "data_collection" then
      let newMode :=
        if lowerStr modeStr = "standby" then OperatingMode.standby
        else OperatingMode.dataCollection
      if s.currentOperatingMode ≠ newMode then
        let s1 := { s with currentOperatingMode := newMode,
                           nvsMode := newMode, ulpRunning := modeUlp newMode }
        let modeOuts : List OutFrame :=
          List.replicate 5 ⟨.broadcast, modeChangeMsg s1⟩
        if s1.myNodeId = 1 then
          (⟨200, .setSuccess modeStr⟩,
           { s1 with nodeModeSynced := List.replicate (N + 1) false },
           modeOuts ++ [⟨.broadcast, announceMsg s1⟩])
        else
          (⟨200, .setSuccess modeStr⟩, s1, modeOuts)
      else
        (⟨200, .setUnchanged modeStr⟩, s, [])
    else
      (⟨400, .invalidModeError⟩, s, [])

/-- HTTP request methods relevant to the registered routes. -/
inductive HttpMethod
  | GET
  | POST
deriving DecidableEq

/-- Route dispatch of the `WebServer`: `becomeActiveReceiver()` registers
exactly `server.on("/sensor_data", HTTP_GET, handleSensorData)` and
`server.on("/set_mode", HTTP_GET, handleSetMode)`; any other (path, method)
pair falls through to the library's default 404 handler. -/
def serve (N : ℕ) (s : NodeState) (m : HttpMethod) (path : String)
    (modeArg : Option String) (nodeIdArg : Option ℤ) :
    HttpResponse × NodeState × List OutFrame :=
  if path = "/sensor_data" ∧ m = .GET then
    (handleSensorData N s nodeIdArg, s, [])
  else if path = "/set_mode" ∧ m = .GET then
    handleSetMode N s modeArg
  else
    (⟨404, .notFoundPage⟩, s, [])

/-! ### Wake-window recentering -/

/-- One adaptive wake window (`rain_lower`/`rain_upper`/`last_rain_val`
resp. the soil triple); the fields live in 16-bit ULP variables. -/
structure WakeWindow where
  lower : ℕ
  upper : ℕ
  lastVal : ℕ
deriving DecidableEq

/-- The recenter step the main program performs on every resumption and on
the receiver's local-sensor path:
`lower = (v > MARGIN) ? v - MARGIN : 0`, `upper = v + MARGIN`, storing into
16-bit `ulp_var_t` fields (hence the mod `2^16`). -/
def recenterWindow (v : ℕ) : WakeWindow :=
  { lower := (if SENSOR_WINDOW_MARGIN < v then v - SENSOR_WINDOW_MARGIN else 0) % 65536,
    upper := (v + SENSOR_WINDOW_MARGIN) % 65536,
    lastVal := v % 65536 }

/-! ### PWM decoder -/

/-- Two's-complement wraparound of a 32-bit signed `long` on the ESP32. -/
def toInt32 (x : ℤ) : ℤ :=
  (x + 2147483648) % 4294967296 - 2147483648

/-- C integer division of `long`s: truncation toward zero. -/
def cDiv (a b : ℤ) : ℤ :=
  Int.tdiv a b

/-- Arduino `map(x, in_min, in_max, out_min, out_max)` over 32-bit `long`:
`(x - in_min) * (out_max - out_min) / (in_max - in_min) + out_min`, with the
product and the final value wrapped to 32 bits. -/
def cMap (x inMin inMax outMin outMax : ℤ) : ℤ :=
  toInt32 (cDiv (toInt32 ((x - inMin) * (outMax - outMin))) (inMax - inMin) + outMin)

/-- `CH32_PWM_MAX_DUTY_VALUE` from the source. -/
def CH32_PWM_MAX_DUTY_VALUE : ℤ := 4799

/-- `TILT_PWM_PERIOD_US` from the source (10 Hz). -/
def TILT_PWM_PERIOD_US : ℤ := 100000

/-- `VIBRATION_PWM_PERIOD_US` from the source (1 Hz). -/
def VIBRATION_PWM_PERIOD_US : ℤ := 1000000

/-- `MAX_TILT_CENTI_DEG` from the source (`90 * 100`). -/
def MAX_TILT_CENTI_DEG : ℤ := 9000

/-- `MAX_VIBRATION_MDPS` from the source. -/
def MAX_VIBRATION_MDPS : ℤ := 750000

/-- `MIN_DISPLAY_VIBRATION_MILLI_G` from the source. -/
def MIN_DISPLAY_VIBRATION_MILLI_G : ℤ := 50

/-- `MAX_DISPLAY_VIBRATION_MILLI_G` from the source. -/
def MAX_DISPLAY_VIBRATION_MILLI_G : ℤ := 25000

/-- `decoded_pwm_val_tilt` as computed in `decodePwmSignals` from the
measured high-pulse duration (µs):
`(tilt_pulse_us * (CH32_PWM_MAX_DUTY_VALUE + 1)) / TILT_PWM_PERIOD_US`. -/
def tiltPwmStep (pulse : ℤ) : ℤ :=
  cDiv (toInt32 (pulse * (CH32_PWM_MAX_DUTY_VALUE + 1))) TILT_PWM_PERIOD_US

/-- `decoded_pwm_val_vibration` as computed in `decodePwmSignals`. -/
def vibPwmStep (pulse : ℤ) : ℤ :=
  cDiv (toInt32 (pulse * (CH32_PWM_MAX_DUTY_VALUE + 1))) VIBRATION_PWM_PERIOD_US

/-- The tilt half of `decodePwmSignals`: `pulseIn` returns 0 on timeout
(no complete pulse within `2 × TILT_PWM_PERIOD_US`), which decodes to 0. -/
def decodeTilt (pulse : ℤ) : ℤ :=
  if 0 < pulse then
    cMap (tiltPwmStep pulse) 0 CH32_PWM_MAX_DUTY_VALUE 0 MAX_TILT_CENTI_DEG
  else 0

/-- The vibration half of `decodePwmSignals`: duty step, then the two
affine maps (step → mdps proxy → display milli-g); `pulseIn` timeout or a
zero duration decodes to 0. -/
def decodeVibration (pulse : ℤ) : ℤ :=
  if 0 < pulse then
    let mdps := cMap (vibPwmStep pulse) 0 CH32_PWM_MAX_DUTY_VALUE 0
      MAX_VIBRATION_MDPS
    cMap mdps 0 MAX_VIBRATION_MDPS MIN_DISPLAY_VIBRATION_MILLI_G
      MAX_DISPLAY_VIBRATION_MILLI_G
  else 0

/-! ### Spec-side comparison definitions -/

/-- Modelled from the spec's words (refinement comparison only):
`step = round(pulseDuration × 4800 / period)`. -/
def specRoundStep (d P : ℕ) : ℤ :=
  round (((d : ℚ) * 4800) / (P : ℚ))

/-- Modelled from the spec's words (refinement comparison only): the
response of one `GET /set_mode` request — 200 success on change, 200
unchanged when already set, 400 when the mode parameter is missing or
unrecognized. -/
def setModeSpecResp (s : NodeState) (modeArg : Option String) : HttpResponse :=
  match modeArg with
  | none => ⟨400, .missingModeError⟩
  | some str =>
      if lowerStr str = "standby" then
        if s.currentOperatingMode = .standby then ⟨200, .setUnchanged str⟩
        else ⟨200, .setSuccess str⟩
      else if lowerStr str = "data_collection" then
        if s.currentOperatingMode = .dataCollection then ⟨200, .setUnchanged str⟩
        else ⟨200, .setSuccess str⟩
      else ⟨400, .invalidModeError⟩

/-- Modelled from the spec's words (refinement comparison only): the
response of an immediate repetition of the same `/set_mode` request — a
valid mode is necessarily "unchanged" the second time. -/
def setModeRepeatResp (modeArg : Option String) : HttpResponse :=
  match modeArg with
  | none => ⟨400, .missingModeError⟩
  | some str =>
      if lowerStr str = "standby" ∨ lowerStr str = "data_collection" then
        ⟨200, .setUnchanged str⟩
      else ⟨400, .invalidModeError⟩

/-! ### Concrete states used in witnesses and counterexamples -/

/-- A node with id 2 holding the Active Receiver role in `STANDBY_MODE`
(the state `becomeActiveReceiver()` leaves after a failover promotion,
with some peers already marked mode-synced). -/
def arNode2 : NodeState :=
  { myNodeId := 2, myRole := .receiver, targetNodeId := 0,
    currentOperatingMode := .standby, lastAnnouncedAR := 2,
    consecutiveSendFailures := 0, lastFailedTargetId := 0,
    probingForFailover := false, failedLastSend := false,
    ulpJustWoke := false,
    nodeModeSynced := [false, true, true, true],
    latestNodeData := List.replicate 4 {},
    nvsMode := .standby, nvsTarget := 0, ulpRunning := true,
    serverRunning := true }

/-- The same Active Receiver in `DATA_COLLECTION_MODE`. -/
def dcNode2 : NodeState :=
  { arNode2 with currentOperatingMode := .dataCollection,
                 nvsMode := .dataCollection, ulpRunning := false }

/-- A sender with id 3 targeting node 2, already at two consecutive send
failures against that target. -/
def senderNode3 : NodeState :=
  { myNodeId := 3, myRole := .sender, targetNodeId := 2,
    currentOperatingMode := .standby, lastAnnouncedAR := 2,
    consecutiveSendFailures := 2, lastFailedTargetId := 2,
    probingForFailover := true, failedLastSend := true,
    ulpJustWoke := false,
    nodeModeSynced := List.replicate 4 false,
    latestNodeData := List.replicate 4 {},
    nvsMode := .standby, nvsTarget := 2, ulpRunning := true,
    serverRunning := false }

/-- `arNode2` after having stored a data snapshot for node 2. -/
def arNode2Data : NodeState :=
  { arNode2 with latestNodeData :=
      [{}, {},
       { macId := 2, rain_adc_value := 5, soil_adc_value := 6,
         vibration_milli_g := 7, tilt_centi_deg := 8, lastUpdated := 9,
         initFlag := true },
       {}] }

/-- An `ANNOUNCE_AR` frame from node 1 carrying `STANDBY_MODE`. -/
def annFrom1 : Message :=
  { type := .announceAR, senderId := 1, wakeCounter := 0,
    tilt_centi_deg := 0, vibration_milli_g := 0, rain_adc_value := 0,
    soil_adc_value := 0, newMode := .standby }

/-- A `MODE_CHANGE` frame from node 1 switching to
`DATA_COLLECTION_MODE`. -/
def mcFrom1 : Message :=
  { type := .modeChange, senderId := 1, wakeCounter := 0,
    tilt_centi_deg := 0, vibration_milli_g := 0, rain_adc_value := 0,
    soil_adc_value := 0, newMode := .dataCollection }

/-! ## Theorems -/

/-- `toInt32` is the identity on values already representable in a signed
32-bit `long`. -/
theorem toInt32_eq_self (x : ℤ) (h0 : -2147483648 ≤ x) (h1 : x < 2147483648) :
    toInt32 x = x := by
  unfold toInt32
  omega

/-- C3 (confirmed). Wake-window recenter: for every observed ADC value `v`
(12-bit, hence at most 4095) and the fixed margin 100, the recentered
window satisfies `lower = max(0, v − 100)` and `upper = v + 100` exactly,
and consequently `lower ≤ v ≤ upper`. -/
theorem C3_recenterWindow_spec (v : ℕ) (h : v ≤ 4095) :
    (((recenterWindow v).lower : ℤ) =
        max 0 ((v : ℤ) - (SENSOR_WINDOW_MARGIN : ℤ))) ∧
    (((recenterWindow v).upper : ℤ) = (v : ℤ) + (SENSOR_WINDOW_MARGIN : ℤ)) ∧
    (recenterWindow v).lower ≤ v ∧ v ≤ (recenterWindow v).upper := by
  unfold recenterWindow SENSOR_WINDOW_MARGIN
  simp only
  have hu : (v + 100) % 65536 = v + 100 := Nat.mod_eq_of_lt (by omega)
  have hl : (if 100 < v then v - 100 else 0) % 65536 =
      if 100 < v then v - 100 else 0 := by
    split <;> omega
  rw [hu, hl]
  rcases Nat.lt_or_ge 100 v with h1 | h1
  · rw [if_pos h1, max_eq_right (by push_cast; omega)]
    refine ⟨?_, ?_, ?_, ?_⟩ <;> push_cast <;> omega
  · rw [if_neg (by omega), max_eq_left (by push_cast; omega)]
    refine ⟨?_, ?_, ?_, ?_⟩ <;> push_cast <;> omega

/-- Witness for C3 at the concrete observed value 2000. -/
theorem C3_recenterWindow_spec_witness :
    (((recenterWindow 2000).lower : ℤ) =
        max 0 (((2000 : ℕ) : ℤ) - (SENSOR_WINDOW_MARGIN : ℤ))) ∧
    (((recenterWindow 2000).upper : ℤ) =
        ((2000 : ℕ) : ℤ) + (SENSOR_WINDOW_MARGIN : ℤ)) ∧
    (recenterWindow 2000).lower ≤ 2000 ∧ 2000 ≤ (recenterWindow 2000).upper :=
  C3_recenterWindow_spec 2000 (by norm_num)

/-- C10 (confirmed). `becomeSender` clamps every integer argument into
`[1, N]`: out-of-range arguments are replaced by 1 before the role,
`lastAnnouncedAR` and the NVS-persisted target are updated, so a sender's
target is never out of range. -/
theorem C10_becomeSender_clamp (N : ℕ) (s : NodeState) (arg : ℤ)
    (hN : 1 ≤ N) :
    1 ≤ (becomeSender N s arg).targetNodeId ∧
    (becomeSender N s arg).targetNodeId ≤ (N : ℤ) ∧
    (becomeSender N s arg).myRole = .sender ∧
    (becomeSender N s arg).lastAnnouncedAR =
      (becomeSender N s arg).targetNodeId ∧
    (becomeSender N s arg).nvsTarget = (becomeSender N s arg).targetNodeId ∧
    ((arg < 1 ∨ (N : ℤ) < arg) → (becomeSender N s arg).targetNodeId = 1) ∧
    (1 ≤ arg → arg ≤ (N : ℤ) → (becomeSender N s arg).targetNodeId = arg) := by
  have hred : (becomeSender N s arg).targetNodeId =
      if arg < 1 ∨ (N : ℤ) < arg then 1 else arg := rfl
  have hrole : (becomeSender N s arg).myRole = .sender := rfl
  have hlast : (becomeSender N s arg).lastAnnouncedAR =
      (becomeSender N s arg).targetNodeId := rfl
  have hnvs : (becomeSender N s arg).nvsTarget =
      (becomeSender N s arg).targetNodeId := rfl
  refine ⟨?_, ?_, hrole, hlast, hnvs, ?_, ?_⟩
  · rw [hred]
    split_ifs with h1 <;> omega
  · rw [hred]
    split_ifs with h1 <;> omega
  · intro hx
    rw [hred, if_pos hx]
  · intro h1 h2
    rw [hred, if_neg (by omega)]

/-- Witness for C10: the out-of-range argument 7 on a 3-node mesh is
replaced by 1. -/
theorem C10_becomeSender_clamp_witness :
    (becomeSender 3 arNode2 7).targetNodeId = 1 :=
  (C10_becomeSender_clamp 3 arNode2 7 (by norm_num)).2.2.2.2.2.1
    (Or.inr (by norm_num))

/-- C8 (confirmed). `/sensor_data?nodeId=k` answers 200 with the stored
snapshot fields exactly when `1 ≤ k ≤ N` and that node's entry is
initialized; otherwise it answers 404 with the error body. -/
theorem C8_handleSensorData_spec (N : ℕ) (s : NodeState) (k : ℤ) :
    ((handleSensorData N s (some k)).code = 200 ↔
       1 ≤ k ∧ k ≤ (N : ℤ) ∧ (snapGet s.latestNodeData k).initFlag = true) ∧
    (1 ≤ k ∧ k ≤ (N : ℤ) ∧ (snapGet s.latestNodeData k).initFlag = true →
       handleSensorData N s (some k) =
         ⟨200, .sensorJson k (snapGet s.latestNodeData k).macId
           (snapGet s.latestNodeData k).rain_adc_value
           (snapGet s.latestNodeData k).soil_adc_value
           (snapGet s.latestNodeData k).vibration_milli_g
           (snapGet s.latestNodeData k).tilt_centi_deg
           (snapGet s.latestNodeData k).lastUpdated⟩) ∧
    (¬(1 ≤ k ∧ k ≤ (N : ℤ) ∧ (snapGet s.latestNodeData k).initFlag = true) →
       handleSensorData N s (some k) = ⟨404, .sensorError⟩) := by
  have hred : handleSensorData N s (some k) =
      if 1 ≤ k ∧ k ≤ (N : ℤ) ∧ (snapGet s.latestNodeData k).initFlag = true then
        ⟨200, .sensorJson k (snapGet s.latestNodeData k).macId
          (snapGet s.latestNodeData k).rain_adc_value
          (snapGet s.latestNodeData k).soil_adc_value
          (snapGet s.latestNodeData k).vibration_milli_g
          (snapGet s.latestNodeData k).tilt_centi_deg
          (snapGet s.latestNodeData k).lastUpdated⟩
      else ⟨404, .sensorError⟩ := rfl
  by_cases hc : 1 ≤ k ∧ k ≤ (N : ℤ) ∧ (snapGet s.latestNodeData k).initFlag = true
  · rw [hred, if_pos hc]
    exact ⟨⟨fun _ => hc, fun _ => rfl⟩, fun _ => rfl, fun hn => absurd hc hn⟩
  · rw [hred, if_neg hc]
    refine ⟨⟨fun h404 => absurd h404 (by norm_num), fun hy => absurd hy hc⟩,
      fun hy => absurd hy hc, fun _ => rfl⟩

/-- Witness for C8: on a 3-node mesh, `nodeId=5` yields 404 and an
initialized `nodeId=2` yields 200. -/
theorem C8_handleSensorData_spec_witness :
    handleSensorData 3 arNode2Data (some 5) = ⟨404, .sensorError⟩ ∧
    (handleSensorData 3 arNode2Data (some 2)).code = 200 :=
  ⟨(C8_handleSensorData_spec 3 arNode2Data 5).2.2 (by decide),
   ((C8_handleSensorData_spec 3 arNode2Data 2).1).mpr (by decide)⟩

/-- C5 counterexample: at a measured tilt pulse of 11 µs the decoder's duty
step is 0, while round-to-nearest of `11 × 4800 / 100000 = 0.528` is 1 —
the decoder does not round to the nearest step. -/
theorem C5_step_not_round :
    tiltPwmStep 11 = 0 ∧ specRoundStep 11 100000 = 1 ∧
    tiltPwmStep 11 ≠ specRoundStep 11 100000 := by
  have h1 : tiltPwmStep 11 = 0 := by decide
  have h2 : specRoundStep 11 100000 = 1 := by
    unfold specRoundStep
    rw [round_eq]
    norm_num
  exact ⟨h1, h2, by rw [h1, h2]; norm_num⟩

/-- C5 (corrected). The decoder computes the duty step by truncating
integer division, i.e. `step = ⌊d × 4800 / P⌋` (floor, not round to
nearest), for both channels, for every pulse duration whose product
`d × 4800` fits a signed 32-bit `long` (`d ≤ 447392` µs, which covers the
whole tilt channel); for longer vibration pulses the 32-bit product wraps
and the computed step is not even the floor: at `d = 500000` µs the code
yields −1894 where the floor is 2400. -/
theorem C5_step_is_floor (d : ℕ) :
    ((d : ℤ) * 4800 < 2147483648 →
      tiltPwmStep d = ⌊((d : ℚ) * 4800) / 100000⌋ ∧
      vibPwmStep d = ⌊((d : ℚ) * 4800) / 1000000⌋) ∧
    vibPwmStep 500000 = -1894 ∧
    ⌊((500000 : ℚ) * 4800) / 1000000⌋ = 2400 := by
  refine ⟨fun h => ?_, by decide, by norm_num⟩
  have h0 : (0 : ℤ) ≤ (d : ℤ) * 4800 := by positivity
  have e1 : toInt32 ((d : ℤ) * (CH32_PWM_MAX_DUTY_VALUE + 1)) =
      (d : ℤ) * 4800 := by
    have e0 : CH32_PWM_MAX_DUTY_VALUE + 1 = (4800 : ℤ) := by
      norm_num [CH32_PWM_MAX_DUTY_VALUE]
    rw [e0]
    exact toInt32_eq_self _ (by omega) h
  have key : ∀ P : ℕ, 0 < P →
      ((d : ℤ) * 4800) / (P : ℤ) = ⌊((d : ℚ) * 4800) / (P : ℚ)⌋ := by
    intro P hP
    have harg : ((((d : ℤ) * 4800 : ℤ) : ℚ)) / ((P : ℕ) : ℚ) =
        ((d : ℚ) * 4800) / (P : ℚ) := by
      push_cast
      ring
    rw [← Rat.floor_intCast_div_natCast ((d : ℤ) * 4800) P, harg]
  constructor
  · simp only [tiltPwmStep, cDiv, TILT_PWM_PERIOD_US]
    rw [e1, Int.tdiv_eq_ediv h0 (by norm_num)]
    exact_mod_cast key 100000 (by norm_num)
  · simp only [vibPwmStep, cDiv, VIBRATION_PWM_PERIOD_US]
    rw [e1, Int.tdiv_eq_ediv h0 (by norm_num)]
    exact_mod_cast key 1000000 (by norm_num)

/-- Witness for C5's corrected statement at the concrete pulse 11 µs
(discharging the no-overflow hypothesis of the floor part). -/
theorem C5_step_is_floor_witness :
    tiltPwmStep (11 : ℕ) = ⌊(((11 : ℕ) : ℚ) * 4800) / 100000⌋ ∧
    vibPwmStep (11 : ℕ) = ⌊(((11 : ℕ) : ℚ) * 4800) / 1000000⌋ :=
  (C5_step_is_floor 11).1 (by norm_num)

/-- C7 (code bug). Evaluation of the vibration decoder at the failing
inputs: a 114 ms pulse decodes to 2893 milli-g but a longer 120 ms pulse
decodes to −2682 milli-g — the 32-bit `long` product `mdps × 24950`
overflows, so the decoded vibration is not a non-decreasing function of
the measured pulse width (the zero/timeout cases do hold). -/
theorem C7_decodeVibration_not_monotone :
    decodeTilt 0 = 0 ∧ decodeVibration 0 = 0 ∧
    decodeVibration 114000 = 2893 ∧ decodeVibration 120000 = -2682 ∧
    decodeVibration 120000 < decodeVibration 114000 := by
  refine ⟨rfl, rfl, by decide, by decide, by decide⟩

/-- C1 (confirmed). Failover determinism: when a sender's consecutive send
failures against its current target `t` reach the threshold 3 (the third
failure completion arrives with the counter at 2), the resulting role is
Active Receiver iff `t+1 > N` or `t+1` equals the node's own id; otherwise
the node becomes a sender targeting exactly `t+1`. -/
theorem C1_failover_role (N : ℕ) (s : NodeState) (t : ℤ)
    (htgt : s.targetNodeId = t) (hcnt : s.consecutiveSendFailures = 2)
    (ht : 1 ≤ t) :
    (((onDataSent N s t false).1.myRole = .receiver) ↔
       ((N : ℤ) < t + 1 ∨ t + 1 = s.myNodeId)) ∧
    (¬((N : ℤ) < t + 1 ∨ t + 1 = s.myNodeId) →
       (onDataSent N s t false).1.myRole = .sender ∧
       (onDataSent N s t false).1.targetNodeId = t + 1) := by
  obtain ⟨id, role, tcur, mode, la, csf, lft, pf, fls, ujw, nms, lnd, nm, nt,
    ur, sr⟩ := s
  dsimp only at htgt hcnt ⊢
  subst htgt
  subst hcnt
  by_cases hp : (N : ℤ) < tcur + 1 ∨ tcur + 1 = id
  · have hres : (onDataSent N ⟨id, role, tcur, mode, la, 2, lft, pf, fls, ujw,
        nms, lnd, nm, nt, ur, sr⟩ tcur false).1.myRole = .receiver := by
      simp [onDataSent, findNewTargetAndFailover, becomeActiveReceiver,
        becomeSender, FAILOVER_THRESHOLD, if_neg (show ¬tcur = 0 by omega),
        if_pos hp]
    exact ⟨⟨fun _ => hp, fun _ => hres⟩, fun hn => absurd hp hn⟩
  · have hres : (onDataSent N ⟨id, role, tcur, mode, la, 2, lft, pf, fls, ujw,
        nms, lnd, nm, nt, ur, sr⟩ tcur false).1.myRole = .sender ∧
        (onDataSent N ⟨id, role, tcur, mode, la, 2, lft, pf, fls, ujw,
        nms, lnd, nm, nt, ur, sr⟩ tcur false).1.targetNodeId = tcur + 1 := by
      constructor <;>
        simp [onDataSent, findNewTargetAndFailover, becomeActiveReceiver,
          becomeSender, FAILOVER_THRESHOLD, if_neg (show ¬tcur = 0 by omega),
          if_neg hp,
          if_neg (show ¬(tcur + 1 < 1 ∨ (N : ℤ) < tcur + 1) by omega)] <;>
        omega
    refine ⟨⟨fun hrec => absurd (hres.1.symm.trans hrec) (by simp),
      fun hyp => absurd hyp hp⟩, fun _ => hres⟩

/-- Witness for C1 on the spec's failover scenario: node 3 with two prior
failures against target 2 receives the third failure completion; the
successor 3 equals self, so it promotes itself to Active Receiver. -/
theorem C1_failover_role_witness :
    (onDataSent 3 senderNode3 2 false).1.myRole = .receiver :=
  ((C1_failover_role 3 senderNode3 2 rfl rfl (by norm_num)).1).mpr
    (Or.inr (by decide))

/-- C2 counterexample: an event other than an `AnnounceAR` receipt demotes
an Active Receiver.  The node with id 2 holding the AR role (target id 0)
receives three failed send completions whose destination MAC resolves to
id 0 (e.g. failed broadcasts); the failure accounting matches the AR's
null target, reaches the threshold and the defensive failover path turns
the AR into a sender targeting node 1. -/
theorem C2_ar_demoted_by_send_failures :
    (onDataSent 3 (onDataSent 3 (onDataSent 3 arNode2 0 false).1 0
        false).1 0 false).1.myRole = .sender ∧
    (onDataSent 3 (onDataSent 3 (onDataSent 3 arNode2 0 false).1 0
        false).1 0 false).1.targetNodeId = 1 := by
  decide

/-- C2 (corrected). Among received messages the demotion rule is exact: a
node holding the Active Receiver role transitions to the sender role iff
the message is an `AnnounceAR` whose (MAC-resolved) sender id `k` is
strictly lower than its own id, and it then targets exactly `k`; an
`AnnounceAR` from a higher or equal id, and every other received message,
leaves it an Active Receiver.  (Send-failure completions can still demote
an AR — see the counterexample.) -/
theorem C2_recv_demotion_iff (N now : ℕ) (s : NodeState) (macId : ℤ)
    (msg : Message) (hrole : s.myRole = .receiver) (h1 : 1 ≤ macId)
    (h2 : macId ≤ (N : ℤ)) :
    ((onDataRecv N now s macId msg).1.myRole = .sender ↔
       (msg.type = .announceAR ∧ macId < s.myNodeId)) ∧
    (msg.type = .announceAR → macId < s.myNodeId →
       (onDataRecv N now s macId msg).1.targetNodeId = macId) := by
  have hm0 : ¬macId = 0 := by omega
  obtain ⟨ty, sid, wc, ti, vi, ra, so, nmo⟩ := msg
  cases ty
  case announceAR =>
    by_cases hlt : macId < s.myNodeId
    · have hres : (onDataRecv N now s macId
          ⟨.announceAR, sid, wc, ti, vi, ra, so, nmo⟩).1.myRole = .sender ∧
          (onDataRecv N now s macId
          ⟨.announceAR, sid, wc, ti, vi, ra, so, nmo⟩).1.targetNodeId =
            macId := by
        constructor <;>
          simp [onDataRecv, becomeSender, hm0, hrole, hlt, modeUlp,
            if_neg (show ¬(macId < 1 ∨ (N : ℤ) < macId) by omega)] <;>
          split_ifs <;> simp_all <;> omega
      exact ⟨⟨fun _ => ⟨rfl, hlt⟩, fun _ => hres.1⟩, fun _ _ => hres.2⟩
    · have hres : (onDataRecv N now s macId
          ⟨.announceAR, sid, wc, ti, vi, ra, so, nmo⟩).1.myRole =
            .receiver := by
        simp [onDataRecv, becomeSender, hm0, hrole, hlt, modeUlp]
        split_ifs <;> simp_all
      refine ⟨⟨fun hs => absurd (hres.symm.trans hs) (by simp),
        fun hand => absurd hand.2 hlt⟩, fun _ hl => absurd hl hlt⟩
  case data =>
    have hres : (onDataRecv N now s macId
        ⟨.data, sid, wc, ti, vi, ra, so, nmo⟩).1.myRole = .receiver := by
      simp [onDataRecv, hm0, hrole]
      split_ifs <;> simp_all
    exact ⟨⟨fun hs => absurd (hres.symm.trans hs) (by simp),
      fun hand => absurd hand.1 (by simp)⟩, fun hty => absurd hty (by simp)⟩
  case probe =>
    have hres : (onDataRecv N now s macId
        ⟨.probe, sid, wc, ti, vi, ra, so, nmo⟩).1.myRole = .receiver := by
      simp [onDataRecv, hm0, hrole]
    exact ⟨⟨fun hs => absurd (hres.symm.trans hs) (by simp),
      fun hand => absurd hand.1 (by simp)⟩, fun hty => absurd hty (by simp)⟩
  case modeChange =>
    have hres : (onDataRecv N now s macId
        ⟨.modeChange, sid, wc, ti, vi, ra, so, nmo⟩).1.myRole =
          .receiver := by
      simp [onDataRecv, hm0, hrole]
      split_ifs <;> simp_all
    exact ⟨⟨fun hs => absurd (hres.symm.trans hs) (by simp),
      fun hand => absurd hand.1 (by simp)⟩, fun hty => absurd hty (by simp)⟩

/-- Witness for C2's corrected statement: the AR with id 2 receives an
`AnnounceAR` resolved to sender id 1 < 2 and becomes a sender. -/
theorem C2_recv_demotion_iff_witness :
    (onDataRecv 3 0 arNode2 1 annFrom1).1.myRole = .sender :=
  ((C2_recv_demotion_iff 3 0 arNode2 1 annFrom1 rfl (by norm_num)
    (by norm_num)).1).mpr ⟨rfl, by decide⟩

/-- C4 (code bug): evaluation at the failing input.  The node with id 2
holds the Active Receiver role in standby and receives a `MODE_CHANGE` to
data-collection: the mode is adopted and persisted and the ULP scheduler is
stopped, but — because the reset is gated on `myNodeId == 1` instead of the
AR role — its `nodeModeSynced` table is left untouched and no `ANNOUNCE_AR`
is re-broadcast. -/
theorem C4_node2AR_modeChange_eval :
    (onDataRecv 3 0 arNode2 1 mcFrom1).1.currentOperatingMode =
      .dataCollection ∧
    (onDataRecv 3 0 arNode2 1 mcFrom1).1.nvsMode = .dataCollection ∧
    (onDataRecv 3 0 arNode2 1 mcFrom1).1.ulpRunning = false ∧
    (onDataRecv 3 0 arNode2 1 mcFrom1).1.nodeModeSynced =
      arNode2.nodeModeSynced ∧
    (onDataRecv 3 0 arNode2 1 mcFrom1).2 = [] := by
  decide

/-- C6 counterexample: `/set_mode` is registered for `HTTP_GET` only, so a
POST request that the claim says should succeed with 200 falls through to
the 404 handler and changes nothing. -/
theorem C6_post_set_mode_not_found :
    serve 3 dcNode2 .POST "/set_mode" (some "standby") none =
      (⟨404, .notFoundPage⟩, dcNode2, []) := by
  decide

/-- C6 (corrected). Over GET — the only method the route is registered
for — `/set_mode` behaves exactly as specified: 400 when the mode
parameter is missing or unrecognized, 200 "success" when a valid mode
differs from the current one, 200 "unchanged" when it is already set, and
any immediate repetition of a valid request answers "unchanged". -/
theorem C6_set_mode_contract (N : ℕ) (s : NodeState) (arg : Option String) :
    (serve N s .GET "/set_mode" arg none).1 = setModeSpecResp s arg ∧
    (serve N (serve N s .GET "/set_mode" arg none).2.1 .GET "/set_mode"
      arg none).1 = setModeRepeatResp arg := by
  have hroute : ∀ s' : NodeState,
      serve N s' .GET "/set_mode" arg none = handleSetMode N s' arg := by
    intro s'
    simp [serve]
  rw [hroute, hroute]
  cases arg with
  | none => exact ⟨rfl, rfl⟩
  | some str =>
    by_cases h1 : lowerStr str = "standby"
    · by_cases hm : s.currentOperatingMode = .standby
      · simp [handleSetMode, setModeSpecResp, setModeRepeatResp, h1, hm]
      · simp only [handleSetMode, setModeSpecResp, setModeRepeatResp, h1,
          if_pos (Or.inl h1), if_pos rfl, if_neg hm]
        constructor <;> split_ifs <;> simp_all
    · by_cases h2 : lowerStr str = "data_collection"
      · by_cases hm : s.currentOperatingMode = .dataCollection
        · simp [handleSetMode, setModeSpecResp, setModeRepeatResp, h1, h2, hm]
        · simp only [handleSetMode, setModeSpecResp, setModeRepeatResp, h1,
            h2, if_pos (Or.inr h2), if_neg hm]
          constructor <;> split_ifs <;> simp_all
      · simp [handleSetMode, setModeSpecResp, setModeRepeatResp, h1, h2]

/-- C9 (confirmed). Mode idempotence: applying the same `AnnounceAR` or
`ModeChange` receipt twice in succession produces no state change on the
second application beyond refreshing `lastAnnouncedAR` — mode, persisted
NVS values, ULP configuration, role, target, sync table and snapshots all
stay as after the first application. -/
theorem C9_recv_idempotent (N now1 now2 : ℕ) (s : NodeState) (macId : ℤ)
    (msg : Message) (h : msg.type = .announceAR ∨ msg.type = .modeChange) :
    { (onDataRecv N now2 (onDataRecv N now1 s macId msg).1 macId msg).1
        with lastAnnouncedAR := 0 } =
    { (onDataRecv N now1 s macId msg).1 with lastAnnouncedAR := 0 } := by
  obtain ⟨ty, sid, wc, ti, vi, ra, so, nmo⟩ := msg
  by_cases hm0 : macId = 0
  · simp [onDataRecv, hm0]
  obtain ⟨id, role, tgt, mode, la, csf, lft, pf, fls, ujw, nms, lnd, nm, nt,
    ur, sr⟩ := s
  rcases h with h | h <;> simp only at h <;> subst h
  · -- AnnounceAR receipt
    cases role with
    | receiver =>
      by_cases hx : macId = 1
      · subst hx
        by_cases hlt : (1 : ℤ) < id <;>
          by_cases hcl : (1 : ℤ) < 1 ∨ (N : ℤ) < 1 <;>
          by_cases hme : mode = nmo <;>
          simp [onDataRecv, becomeSender, modeUlp, hlt, hcl, hme]
      · by_cases hlt : macId < id <;>
          by_cases hcl : macId < 1 ∨ (N : ℤ) < macId <;>
          by_cases hme : mode = nmo <;>
          simp [onDataRecv, becomeSender, modeUlp, hm0, hlt, hcl, hme, hx]
    | sender =>
      by_cases hx : macId = 1
      · subst hx
        rcases eq_or_ne tgt 1 with htg | htg
        · by_cases hcl : (1 : ℤ) < 1 ∨ (N : ℤ) < 1 <;>
            by_cases hme : mode = nmo <;>
            simp [onDataRecv, becomeSender, modeUlp, htg, hcl, hme]
        · have htg2 : ¬((1 : ℤ) = tgt) := fun hcon => htg hcon.symm
          by_cases hcl : (1 : ℤ) < 1 ∨ (N : ℤ) < 1 <;>
            by_cases hme : mode = nmo <;>
            simp [onDataRecv, becomeSender, modeUlp, htg2, hcl, hme]
      · rcases eq_or_ne tgt macId with htg | htg
        · by_cases hcl : macId < 1 ∨ (N : ℤ) < macId <;>
            by_cases hme : mode = nmo <;>
            simp [onDataRecv, becomeSender, modeUlp, hm0, htg, hcl, hme, hx]
        · have htg2 : ¬(macId = tgt) := fun hcon => htg hcon.symm
          by_cases hcl : macId < 1 ∨ (N : ℤ) < macId <;>
            by_cases hme : mode = nmo <;>
            simp [onDataRecv, becomeSender, modeUlp, hm0, htg2, hcl, hme, hx]
  · -- ModeChange receipt
    by_cases hme : mode = nmo
    · simp [onDataRecv, hm0, hme]
    · by_cases hid : id = 1 <;> simp [onDataRecv, modeUlp, hm0, hme, hid]

/-- Witness for C9: the AR with id 2 receives the same `AnnounceAR` from
node 1 twice; the second receipt changes nothing but `lastAnnouncedAR`. -/
theorem C9_recv_idempotent_witness :
    { (onDataRecv 3 0 (onDataRecv 3 0 arNode2 1 annFrom1).1 1 annFrom1).1
        with lastAnnouncedAR := 0 } =
    { (onDataRecv 3 0 arNode2 1 annFrom1).1 with lastAnnouncedAR := 0 } :=
  C9_recv_idempotent 3 0 0 arNode2 1 annFrom1 (Or.inl rfl)

end SensorBridge
